import Mathlib

/-!
Verification of the facad directory-listing core: entry classification
(`get_emoji`), the two sort comparators (`compare_file_entries`,
`compare_entries`), the UTF-8 width calculator (`get_utf8_char_width`,
`get_display_width`), the grid layout (`display_entries`) and the
per-directory column configuration (`get_max_columns`).

C strings are modelled as the list of their bytes before the NUL
terminator (`List Nat`, each element a byte value, never 0); stateful
probes (lstat, the executable bit, the bounded content read) are passed
in explicitly as fields of a metadata record.
-/

namespace Facad

/-- Byte list of an ASCII string literal (one byte per character). -/
def ascii (s : String) : List Nat := s.data.map Char.toNat

/-! ## Width calculator (display_utils.c) -/

/-- Embeds `get_utf8_char_width` (display_utils.c): byte-run length from
the leading byte: `<0x80` gives 1, `<0xE0` gives 2, `<0xF0` gives 3, else 4. -/
def get_utf8_char_width (c : Nat) : Nat :=
  if c < 0x80 then 1
  else if c < 0xE0 then 2
  else if c < 0xF0 then 3
  else 4

/-- The loop body of `get_display_width` (display_utils.c), indexed by a
fuel argument that only serves to make the recursion structural; every
step consumes at least one byte, so fuel equal to the list length is
never exhausted. -/
def get_display_width_go : Nat → List Nat → Nat
  | _, [] => 0
  | 0, _ :: _ => 0
  | fuel + 1, c :: rest =>
    if c = 0 then 0
    else
      let w := get_utf8_char_width c
      (if w = 4 then 2 else 1) + get_display_width_go fuel (rest.drop (w - 1))

/-- Embeds `get_display_width` (display_utils.c): walks the byte string,
adding 2 display units for a 4-byte run and 1 for every shorter run, and
advancing by the run length.  The `c = 0` guard mirrors the C loop
condition `while (*str)`; a byte list modelling C string content never
contains 0. -/
def get_display_width (l : List Nat) : Nat := get_display_width_go l.length l

/-! ## Per-directory column configuration (dir_config.c) -/

/-- Embeds the macro `DEFAULT_MAX_COLUMNS` (dir_config.h). -/
def DEFAULT_MAX_COLUMNS : Nat := 4

/-- Embeds the array `directory_configs` (dir_config.c). -/
def directory_configs : List (String × Nat) := [("/dev", 6), ("/proc", 5)]

/-- The lookup loop inside `get_max_columns` (dir_config.c): first
matching path wins, otherwise the default. -/
def get_max_columns_loop : List (String × Nat) → String → Nat
  | [], _ => DEFAULT_MAX_COLUMNS
  | cfg :: rest, path => if path = cfg.1 then cfg.2 else get_max_columns_loop rest path

/-- Embeds `get_max_columns` (dir_config.c). -/
def get_max_columns (path : String) : Nat :=
  get_max_columns_loop directory_configs path

/-! ## Default-view comparator (file_card.c) -/

/-- The fields of `FileCardInfo` (file_card.h) that the comparator reads;
the display-only fields (`emoji`, `git_status`) are not consulted by
`compare_file_entries` and are omitted here. -/
structure FileCardInfo where
  name : List Nat
  is_directory : Bool
  is_hidden : Bool
deriving DecidableEq, Repr

/-- C `tolower` in the C locale on an unsigned-char value. -/
def c_tolower (c : Nat) : Nat := if 65 ≤ c ∧ c ≤ 90 then c + 32 else c

/-- Embeds `strcasecmp_wrapper` (file_card.c): walks both strings while
both have characters left, returning the first case-folded difference,
and otherwise the case-folded difference at the first terminator (the
empty list stands for the NUL terminator, whose `tolower` is 0). -/
def strcasecmp_wrapper : List Nat → List Nat → Int
  | [], [] => 0
  | [], b :: _ => 0 - (c_tolower b : Int)
  | a :: _, [] => (c_tolower a : Int) - 0
  | a :: as, b :: bs =>
    if c_tolower a ≠ c_tolower b then (c_tolower a : Int) - (c_tolower b : Int)
    else strcasecmp_wrapper as bs

/-- The suffix of a byte list after its last `'.'` (byte 46), `none` when
no dot occurs; models the `strrchr(path, '.')` result moved past the dot. -/
def afterLastDot : List Nat → Option (List Nat)
  | [] => none
  | c :: rest =>
    match afterLastDot rest with
    | some s => some s
    | none => if c = 46 then some rest else none

/-- Embeds `get_extension` (file_card.c): the substring after the last
`'.'`, or the empty string when there is no dot or the only dot is the
leading character (`dot == name`). -/
def get_extension (name : List Nat) : List Nat :=
  match name with
  | [] => []
  | _ :: rest => (afterLastDot rest).getD []

/-- The C expression `name[0] == '.'` used by the comparator. -/
def is_dot_name (n : List Nat) : Bool := n.headD 0 == 46

/-- The value of a C boolean expression used in arithmetic. -/
def bool_int (b : Bool) : Int := if b then 1 else 0

/-- Embeds `compare_file_entries` (file_card.c): directories before
files; within each class dotfiles first; files then by case-folded
extension, and case-folded name as the final tiebreak. -/
def compare_file_entries (a b : FileCardInfo) : Int :=
  if a.is_directory ≠ b.is_directory then
    bool_int b.is_directory - bool_int a.is_directory
  else if a.is_directory && b.is_directory then
    if is_dot_name a.name ≠ is_dot_name b.name then
      bool_int (is_dot_name b.name) - bool_int (is_dot_name a.name)
    else strcasecmp_wrapper a.name b.name
  else
    if is_dot_name a.name ≠ is_dot_name b.name then
      bool_int (is_dot_name b.name) - bool_int (is_dot_name a.name)
    else
      let ec := strcasecmp_wrapper (get_extension a.name) (get_extension b.name)
      if ec ≠ 0 then ec else strcasecmp_wrapper a.name b.name

/-- Inserting into a list sorted by `compare_file_entries`; `sort_entries`
below models the `qsort` call on the comparator (on inputs where every
pair compares nonzero the sorted order is unique, so the model is exact). -/
def insert_sorted (x : FileCardInfo) : List FileCardInfo → List FileCardInfo
  | [] => [x]
  | y :: ys =>
    if compare_file_entries x y ≤ 0 then x :: y :: ys else y :: insert_sorted x ys

/-- Insertion sort by `compare_file_entries`. -/
def sort_entries (l : List FileCardInfo) : List FileCardInfo :=
  l.foldr insert_sorted []

/-! ## Detailed-view comparator (longlisting.c) -/

/-- The fields of `struct file_info` (longlisting.c) that `compare_entries`
reads; display-only fields are omitted. -/
structure file_info where
  name : List Nat
  size : Int
  is_dir : Bool
  subdir_count : Int
deriving DecidableEq, Repr

/-- Model of libc `strcasecmp` (C locale); same comparison the portable
wrapper in file_card.c performs. -/
def c_strcasecmp (a b : List Nat) : Int := strcasecmp_wrapper a b

/-- Embeds `compare_entries` (longlisting.c): directories before files;
directories by descending subdirectory count then descending size; files
by descending size; case-folded name as the final tiebreak. -/
def compare_entries (fa fb : file_info) : Int :=
  if fa.is_dir && !fb.is_dir then -1
  else if !fa.is_dir && fb.is_dir then 1
  else if fa.is_dir && fb.is_dir then
    if fa.subdir_count ≠ fb.subdir_count then fb.subdir_count - fa.subdir_count
    else if fa.size ≠ fb.size then (if fa.size < fb.size then 1 else -1)
    else c_strcasecmp fa.name fb.name
  else
    if fa.size ≠ fb.size then (if fa.size < fb.size then 1 else -1)
    else c_strcasecmp fa.name fb.name

/-! ## Classifier (emoji_utils.c) -/

/-- The inputs `get_emoji` (emoji_utils.c) draws from the world: the path
string it is handed plus the outcome of its probes — whether `lstat`
succeeded and the resulting type bits, the `is_executable` stat probe,
and the bounded content read (`none` when `fopen` fails, otherwise the
up-to-1024 bytes `fread` returned). -/
structure EmojiMeta where
  path : List Nat
  statOk : Bool
  isLnk : Bool
  isDir : Bool
  isExec : Bool
  content : Option (List Nat)
deriving DecidableEq, Repr

/-- C `isprint` in the C locale on an unsigned-char value. -/
def c_isprint (c : Nat) : Bool := 32 ≤ c && c ≤ 126

/-- C `isspace` in the C locale on an unsigned-char value. -/
def c_isspace (c : Nat) : Bool := c == 32 || (9 ≤ c && c ≤ 13)

/-- Embeds `is_text_file` (emoji_utils.c): 0 when the file cannot be
opened, 1 when the bounded read returns zero bytes, otherwise 1 exactly
when every byte read is printable or whitespace. -/
def is_text_file : Option (List Nat) → Nat
  | none => 0
  | some bs =>
    if bs = [] then 1
    else if bs.all (fun b => c_isprint b || c_isspace b) then 1 else 0

/-- Embeds the extension if/else chain of `get_emoji` (emoji_utils.c),
as a partial map from the extension (bytes after the last dot) to the
emitted glyph; `none` falls through to the fallback heuristics. -/
def extension_emoji (ext : List Nat) : Option String :=
  if ext = ascii "md" then some "📑"
  else if ext = ascii "jpg" ∨ ext = ascii "jpeg" ∨ ext = ascii "png" ∨
          ext = ascii "gif" ∨ ext = ascii "bmp" ∨ ext = ascii "svg" ∨
          ext = ascii "webp" then some "📸"
  else if ext = ascii "mp4" ∨ ext = ascii "avi" ∨ ext = ascii "mkv" ∨
          ext = ascii "mov" ∨ ext = ascii "flv" ∨ ext = ascii "wmv" ∨
          ext = ascii "webm" then some "🎬"
  else if ext = ascii "mp3" ∨ ext = ascii "wav" ∨ ext = ascii "ogg" ∨
          ext = ascii "flac" ∨ ext = ascii "m4a" ∨ ext = ascii "aac" then some "🎧"
  else if ext = ascii "zip" ∨ ext = ascii "tar" ∨ ext = ascii "gz" ∨
          ext = ascii "bz2" ∨ ext = ascii "xz" ∨ ext = ascii "7z" ∨
          ext = ascii "rar" then some "📦"
  else if ext = ascii "deb" ∨ ext = ascii "rpm" then some "📥"
  else if ext = ascii "py" ∨ ext = ascii "sh" ∨ ext = ascii "js" ∨
          ext = ascii "html" ∨ ext = ascii "css" ∨ ext = ascii "cpp" ∨
          ext = ascii "c" ∨ ext = ascii "java" ∨ ext = ascii "go" ∨
          ext = ascii "rb" ∨ ext = ascii "rs" ∨ ext = ascii "php" ∨
          ext = ascii "h" ∨ ext = ascii "hpp" then some "💻"
  else if ext = ascii "o" then some "🧩"
  else if ext = ascii "txt" ∨ ext = ascii "rst" ∨ ext = ascii "log" then some "📝"
  else if ext = ascii "ttf" ∨ ext = ascii "otf" ∨ ext = ascii "woff" ∨
          ext = ascii "woff2" then some "🔤"
  else if ext = ascii "pdf" ∨ ext = ascii "djvu" ∨ ext = ascii "epub" then some "📚"
  else if ext = ascii "pem" ∨ ext = ascii "crt" ∨ ext = ascii "key" ∨
          ext = ascii "pub" ∨ ext = ascii "p12" then some "🔑"
  else if ext = ascii "csv" then some "📊"
  else if ext = ascii "torrent" then some "🌊"
  else if ext = ascii "iso" ∨ ext = ascii "img" then some "💽"
  else if ext = ascii "qcow" ∨ ext = ascii "qcow2" then some "🐮"
  else if ext = ascii "vv" then some "🕹️"
  else if ext = ascii "doc" ∨ ext = ascii "docx" ∨ ext = ascii "odt" ∨
          ext = ascii "rtf" ∨ ext = ascii "xls" ∨ ext = ascii "xlsx" ∨
          ext = ascii "ods" ∨ ext = ascii "ppt" ∨ ext = ascii "pptx" ∨
          ext = ascii "odp" then some "📄"
  else if ext = ascii "conf" ∨ ext = ascii "config" ∨ ext = ascii "toml" ∨
          ext = ascii "cfg" ∨ ext = ascii "yaml" ∨ ext = ascii "yml" ∨
          ext = ascii "json" ∨ ext = ascii "ini" then some "⚙️"
  else none

/-- The shared fallback branch of `get_emoji` (emoji_utils.c): hidden
name, then the executable bit, then the text-content probe, then the
unknown glyph. -/
def emoji_fallback (m : EmojiMeta) : String :=
  if m.path.headD 0 == 46 then "⚙️"
  else if m.isExec then "💾"
  else if is_text_file m.content ≠ 0 then "📝"
  else "❓"

/-- Embeds `get_emoji` (emoji_utils.c): stat failure, symlink and
directory short-circuits, then the extension chain (on the suffix after
the last dot, wherever that dot is), then the fallback heuristics.  No
name table is consulted anywhere on this path. -/
def get_emoji (m : EmojiMeta) : String :=
  if !m.statOk then "❓"
  else if m.isLnk then (if m.isDir then "🔗📁" else "🔗")
  else if m.isDir then "📁"
  else
    match afterLastDot m.path with
    | some ext =>
      match extension_emoji ext with
      | some e => e
      | none => emoji_fallback m
    | none => emoji_fallback m

/-- Embeds the array `emoji_exact_file_map` (emoji_mappings.c), the
table of well-known exact file names; commented-out source entries are
omitted.  Nothing under src consults this table. -/
def emoji_exact_file_map : List (String × String) := [
  ("shadow", "🕶️"),
  ("shadow-", "🔙"),
  ("fstab", "⬜"),
  ("Makefile.am", "🏗️ "),
  ("configure.ac", "🏗️ "),
  ("CmakeLists.txt", "🏗️ "),
  ("meson.build", "🏗️ "),
  ("meson_options.txt", "🏗️ "),
  ("WORKSPACE", "🏗️ "),
  (".bazelrc", "🏗️ "),
  ("Makefile.in", "🏗️ "),
  ("configure.ac", "🏗️ "),
  ("Dockerfile", "🐳"),
  ("Dockerfile.txt", "🐳"),
  (".gitlab-ci.yml", "🦊"),
  (".travis.yml", "⛑️"),
  ("swagger.yaml", "🧣"),
  ("Jenkinsfile", "🔴"),
  ("tags", "🏷️ "),
  (".hgtags", "🏷️ "),
  ("COPYING", "⚖️ "),
  ("COPYING.LIB", "⚖️ "),
  ("APACHE2", "⚖️ "),
  (".ninja_deps", "🥷"),
  (".ninja_log", "🥷"),
  (".gitattributes", "🐙"),
  (".gitconfig", "🐙"),
  (".gitmodules", "🐙"),
  (".git-blame-ignore-revs", "🐙"),
  (".gitkeep", "🐙"),
  (".gitallowed", "🐙"),
  (".zcompdump", "🆉 "),
  (".zprofile", "🆉 "),
  (".zshrc", "🆉 "),
  (".histfile", "🆉 "),
  (".bashrc", "💰"),
  (".bash_history", "💰"),
  (".bash_logout", "💰"),
  (".bash_profile", "💰"),
  (".prettierrc", "🖌️ "),
  (".inputrc", "🖮 "),
  (".vimrc", "🖖"),
  (".viminfo", "🖖"),
  (".clang-tidy", "🧹"),
  (".clang-format", "🧹"),
  (".clangd", "🧹"),
  (".babelrc", "🗼"),
  ("manifest.txt", "📜"),
  ("robots.txt", "🕷️"),
  ("sitemap.txt", "🗺️"),
  ("Pipfile.txt", "🐍"),
  ("requirements.txt", "🧾"),
  (".editorconfig", "📐"),
  ("tsconfig.json", "🔷"),
  ("tsconfig.test.json", "🧪"),
  ("jest.config.js", "🧪"),
  ("php.ini", "🐘"),
  ("dnsmasq.conf", "🌐"),
  ("vimrc", "🖖"),
  ("virc", "🖖"),
  ("profile", "🚪"),
  ("libuser.conf", "👤"),
  ("subuid", "👤"),
  ("subuid-", "🔙"),
  ("pinforc", "📌"),
  ("sudoers", "👑"),
  ("sudo.conf", "👑"),
  ("man_db.conf", "📖"),
  ("chrony.conf", "⏰"),
  ("group", "👥"),
  ("group-", "🔙"),
  ("zshenv", "🆉 "),
  ("zlogin", "🆉 "),
  ("zlogout", "🆉 "),
  ("zshrc", "🆉 "),
  ("zprofile", "🆉 "),
  ("inittab", "🚀"),
  ("netconfig", "🌐"),
  ("hosts", "🏠"),
  ("login.defs", "🪵"),
  ("logrotate.conf", "🪵"),
  ("rsyslog.conf", "🪵"),
  ("aliases", "🔀"),
  ("dnsmasq.conf", "🎭"),
  ("kdump.conf", "🚛"),
  ("makedumpfile.conf.sample", "🚛"),
  ("subgid", "👥"),
  ("subgid-", "🔙"),
  ("ts.conf", "👆"),
  ("krb5.conf", "🎟️"),
  ("xattr.conf", "🏷️"),
  ("mke2fs.conf", "🌱"),
  ("sysctl.conf", "🎛️ "),
  ("opensc.conf", "💳"),
  ("whois.conf", "🕵️"),
  ("sddm.conf", "🖥️ "),
  ("asound.conf", "🔊"),
  ("passim.conf", "📡"),
  ("vdpau_wrapper.cfg", "🎞️"),
  ("Trolltech.conf", "🔨"),
  ("npmrc", "📦"),
  ("nilfs_cleanerd.conf", "🧹"),
  ("sensors3.conf", "🌡️"),
  ("brltty.conf", "👓"),
  ("magic", "🎩"),
  ("swtpm-localca.options", "🔐"),
  ("filesystems", "🌳"),
  ("passwd", "🛡️"),
  ("passwd-", "🔙"),
  ("bashrc", "💰"),
  ("crontab", "📅"),
  ("Gemfile", "💎"),
  ("Cargo.toml", "🛻"),
  (".eslintrc", "🧹"),
  ("tox.ini", "🧪"),
  ("rsyncd.conf", "🔁"),
  (".cocciconfig", "🐞"),
  (".gdbinit", "🐠"),
  (".flake8", "🥣"),
  (".mailmap", "📧"),
  ("gradle.properties", "🐘"),
  ("build.gradle.kts", "🐘"),
  (".flowconfig", "🧹"),
  ("Doxyfile", "🕮 "),
  ("AUTHORS", "📝"),
  ("index", "📌"),
  ("perf.data", "⏱️"),
  ("perf.data.old", "⏱️")]

/-- Case-folding helper for the spec-modelled exact-name lookup below. -/
def fold_lower (s : String) : List Char := s.data.map Char.toLower

/-- Modelled from the spec: the exact-file-name lookup of cascade step 4
("case-insensitive full-string match against a table of well-known
filenames") is missing from src — no code there reads
`emoji_exact_file_map` — so the lookup follows the spec words: the first
table entry whose key case-folds to the probed name. -/
def exact_file_emoji (name : String) : Option String :=
  (emoji_exact_file_map.find? (fun e => fold_lower e.1 == fold_lower name)).map (fun e => e.2)

/-! ## Grid layout engine (display_utils.c, display_entries) -/

/-- The per-entry data `display_entries` (display_utils.c) renders: the
glyph bytes, the name bytes, and `git_status[0]` when it is not NUL. -/
structure CardView where
  emoji : List Nat
  name : List Nat
  gitStatus : Option Nat
deriving DecidableEq, Repr

/-- One entry's printed width as `display_entries` computes it:
`EMOJI_WIDTH (2) + EMOJI_NAME_SPACING (1) + display width of the name`,
plus 3 for the `(X)` git marker when present. -/
def entry_width (e : CardView) : Nat :=
  2 + 1 + get_display_width e.name +
    (match e.gitStatus with
     | some _ => 3
     | none => 0)

/-- The running maximum of entry widths (initial value 0), as the
`max_width` loop of `display_entries` computes it. -/
def max_entry_width (cards : List CardView) : Nat :=
  cards.foldl (fun m e => max m (entry_width e)) 0

/-- The column count of `display_entries`: candidate
`(term_width + SPACING) / (max_width + SPACING)` with `SPACING = 2`,
capped at `get_max_columns` of the listed directory, then raised to at
least 1. -/
def num_columns (cards : List CardView) (term_width : Nat) (dir : String) : Nat :=
  let cand := (term_width + 2) / (max_entry_width cards + 2)
  let capped := if cand > get_max_columns dir then get_max_columns dir else cand
  if capped < 1 then 1 else capped

/-- The row count of `display_entries`:
`(num_entries + num_columns - 1) / num_columns`. -/
def grid_rows (num_entries cols : Nat) : Nat := (num_entries + cols - 1) / cols

/-- The flat entry index the grid cell at `(col, row)` displays:
`col * rows + row` (display_entries). -/
def cell_index (rows col row : Nat) : Nat := col * rows + row

/-- The final value of `column_widths[col]` after the width loop of
`display_entries`: the maximum entry width over the flat indices `i`
with `i / rows = col` (initial value 0). -/
def col_width (ws : List Nat) (rows col : Nat) : Nat :=
  ((List.range ws.length).zip ws).foldl
    (fun m p => if p.1 / rows = col then max m p.2 else m) 0

/-- The bytes one occupied cell prints before its padding: glyph, one
space, name, and the `(X)` git marker with its ANSI colour codes when
present. -/
def cell_bytes (e : CardView) : List Nat :=
  e.emoji ++ [32] ++ e.name ++
    (match e.gitStatus with
     | some c => [40, 27, 91, 51, 50, 109, c, 27, 91, 48, 109, 41]
     | none => [])

/-- The bytes the cell at `(col, row)` contributes to its output row:
nothing when its flat index is out of range, otherwise `cell_bytes`
followed by padding to the column width plus `SPACING` — except in the
last column, which gets no padding. -/
def cell_render (cards : List CardView) (ws : List Nat) (rows cols row col : Nat) :
    List Nat :=
  match cards.get? (cell_index rows col row) with
  | none => []
  | some e =>
    let pad :=
      if col < cols - 1 then
        col_width ws rows col - ws.getD (cell_index rows col row) 0 + 2
      else 0
    cell_bytes e ++ List.replicate pad 32

/-- One output row of `display_entries` (the newline omitted). -/
def render_row (cards : List CardView) (ws : List Nat) (rows cols row : Nat) :
    List Nat :=
  ((List.range cols).map (cell_render cards ws rows cols row)).flatten

/-- The grid `display_entries` prints, one byte list per output row. -/
def display_grid (cards : List CardView) (term_width : Nat) (dir : String) :
    List (List Nat) :=
  let ws := cards.map entry_width
  let cols := num_columns cards term_width dir
  let rows := grid_rows cards.length cols
  (List.range rows).map (render_row cards ws rows cols)

/-! ## Concrete inputs used by the claim theorems -/

/-- The five entries of the default-sort scenario. -/
def c2_input : List FileCardInfo :=
  [⟨ascii "src", true, false⟩, ⟨ascii ".git", true, true⟩,
   ⟨ascii "main.c", false, false⟩, ⟨ascii "README.md", false, false⟩,
   ⟨ascii ".gitignore", false, true⟩]

/-- The output order the scenario claims. -/
def c2_claimed : List FileCardInfo :=
  [⟨ascii ".git", true, true⟩, ⟨ascii "src", true, false⟩,
   ⟨ascii ".gitignore", false, true⟩, ⟨ascii "README.md", false, false⟩,
   ⟨ascii "main.c", false, false⟩]

/-- The order the comparator actually produces. -/
def c2_actual : List FileCardInfo :=
  [⟨ascii ".git", true, true⟩, ⟨ascii "src", true, false⟩,
   ⟨ascii ".gitignore", false, true⟩, ⟨ascii "main.c", false, false⟩,
   ⟨ascii "README.md", false, false⟩]

/-- Five cards of printed width 10 (3 fixed + 7 name characters). -/
def c5_cards : List CardView :=
  [⟨[240, 159, 147, 129], ascii "morning", none⟩,
   ⟨[240, 159, 147, 129], ascii "evening", none⟩,
   ⟨[240, 159, 147, 129], ascii "night.c", none⟩,
   ⟨[240, 159, 147, 129], ascii "summer.", none⟩,
   ⟨[240, 159, 147, 129], ascii "winters", none⟩]

/-- A single narrow card. -/
def c8_card : CardView := ⟨[240, 159, 147, 129], ascii "a", none⟩


/-! ## Claim theorems -/

/-- Every result of `get_max_columns` is at least the default 4. -/
theorem get_max_columns_ge_default (path : String) :
    DEFAULT_MAX_COLUMNS ≤ get_max_columns path := by
  simp only [get_max_columns, directory_configs, get_max_columns_loop]
  split
  · simp [DEFAULT_MAX_COLUMNS]
  · split
    · simp [DEFAULT_MAX_COLUMNS]
    · exact Nat.le_refl _

/-- Any fuel at least the list length computes the same width. -/
theorem get_display_width_go_fuel :
    ∀ (f1 f2 : Nat) (l : List Nat), l.length ≤ f1 → l.length ≤ f2 →
      get_display_width_go f1 l = get_display_width_go f2 l := by
  intro f1
  induction f1 with
  | zero =>
    intro f2 l h1 _
    cases l with
    | nil => cases f2 <;> rfl
    | cons c rest => simp at h1
  | succ g1 ih =>
    intro f2 l h1 h2
    cases l with
    | nil => cases f2 <;> rfl
    | cons c rest =>
      cases f2 with
      | zero => simp at h2
      | succ g2 =>
        rw [get_display_width_go, get_display_width_go]
        by_cases hc : c = 0
        · rw [if_pos hc, if_pos hc]
        · rw [if_neg hc, if_neg hc]
          dsimp only
          rw [ih g2 (rest.drop (get_utf8_char_width c - 1))
            (by simp only [List.length_drop]; simp at h1; omega)
            (by simp only [List.length_drop]; simp at h2; omega)]

/-- The loop equation of `get_display_width`: one run per step. -/
theorem get_display_width_cons (c : Nat) (rest : List Nat) :
    get_display_width (c :: rest) =
      if c = 0 then 0
      else (if get_utf8_char_width c = 4 then 2 else 1) +
        get_display_width (rest.drop (get_utf8_char_width c - 1)) := by
  show get_display_width_go (rest.length + 1) (c :: rest) = _
  rw [get_display_width_go]
  by_cases hc : c = 0
  · rw [if_pos hc, if_pos hc]
  · rw [if_neg hc, if_neg hc]
    dsimp only
    unfold get_display_width
    rw [get_display_width_go_fuel rest.length (rest.drop (get_utf8_char_width c - 1)).length
      (rest.drop (get_utf8_char_width c - 1))
      (by simp only [List.length_drop]; omega) (Nat.le_refl _)]

/-- Every byte of the suffix after the last dot occurs in the list. -/
theorem afterLastDot_mem : ∀ (l s : List Nat), afterLastDot l = some s → ∀ x ∈ s, x ∈ l := by
  intro l
  induction l with
  | nil => intro s h; simp [afterLastDot] at h
  | cons c rest ih =>
    intro s h x hx
    cases hrec : afterLastDot rest with
    | some s2 =>
      simp only [afterLastDot, hrec] at h
      injection h with h
      subst h
      exact List.mem_cons_of_mem c (ih s2 hrec x hx)
    | none =>
      simp only [afterLastDot, hrec] at h
      by_cases hc : c = 46
      · rw [if_pos hc] at h
        injection h with h
        subst h
        exact List.mem_cons_of_mem c hx
      · rw [if_neg hc] at h
        cases h

/-- Every byte of `get_extension name` occurs in `name`. -/
theorem get_extension_mem (n : List Nat) (x : Nat) (hx : x ∈ get_extension n) : x ∈ n := by
  cases n with
  | nil => simp [get_extension] at hx
  | cons c rest =>
    rw [get_extension] at hx
    cases h : afterLastDot rest with
    | none => rw [h] at hx; simp at hx
    | some s =>
      rw [h] at hx
      exact List.mem_cons_of_mem c (afterLastDot_mem rest s h x hx)

/-- The layout always computes at least one column. -/
theorem num_columns_pos (cards : List CardView) (tw : Nat) (dir : String) :
    1 ≤ num_columns cards tw dir := by
  unfold num_columns
  dsimp only
  split_ifs <;> omega

/-- Claim C2 counterexample: on the five scenario entries the claimed
output order is not what `compare_file_entries` sorts to — in the claimed
order README.md precedes main.c, yet the comparator puts README.md
strictly after main.c (extension "md" sorts after "c"), so the claimed
list is not sorted under the comparator. -/
theorem c2_counterexample :
    sort_entries c2_input ≠ c2_claimed ∧
    0 < compare_file_entries ⟨ascii "README.md", false, false⟩ ⟨ascii "main.c", false, false⟩ := by
  decide

/-- Claim C2 (amended): sorting the five scenario entries with the
default-view comparator yields .git, src, .gitignore, main.c, README.md
— hidden directory, visible directory, hidden file, then files by
ascending extension ("c" before "md"). -/
theorem c2_amended_order : sort_entries c2_input = c2_actual := by decide

/-- Claim C3 counterexample: Makefile (no extension) and main.c
(extension "c") are both non-hidden files, and the comparator returns a
negative value, so the extensionless entry sorts BEFORE the entry with
an extension, not after it as claimed. -/
theorem c3_counterexample :
    get_extension (ascii "Makefile") = [] ∧
    get_extension (ascii "main.c") ≠ [] ∧
    compare_file_entries ⟨ascii "Makefile", false, false⟩ ⟨ascii "main.c", false, false⟩ < 0 := by
  decide

/-- Claim C9 counterexample: the configured device directory /dev is
capped at 6 columns, which is not lower than the default maximum 4. -/
theorem c9_counterexample :
    get_max_columns "/dev" = 6 ∧ ¬ get_max_columns "/dev" < DEFAULT_MAX_COLUMNS := by
  decide

/-- Claim C9 (amended): every per-directory max-column override in the
configuration table is strictly HIGHER than the default maximum of 4
returned for unconfigured paths: /dev gets 6 and /proc gets 5. -/
theorem c9_amended_overrides :
    get_max_columns "/dev" = 6 ∧ get_max_columns "/proc" = 5 ∧
    ∀ cfg ∈ directory_configs, DEFAULT_MAX_COLUMNS < cfg.2 := by
  decide

/-- Witness for the amended C9 at the /dev entry. -/
theorem c9_witness : DEFAULT_MAX_COLUMNS < 6 :=
  c9_amended_overrides.2.2 ("/dev", 6) (by decide)

/-- Claim C1 evaluated at its failing inputs: the exact-file-name table
maps Dockerfile to the whale glyph, yet `get_emoji` classifies a regular
text file named Dockerfile with the generic text glyph because it never
consults the table; the table does not even contain LICENSE (the entry
is commented out in the source), and a text file named LICENSE also
falls through to the generic text glyph. -/
theorem c1_classifier_skips_exact_table :
    exact_file_emoji "Dockerfile" = some "🐳" ∧
    get_emoji ⟨ascii "Dockerfile", true, false, false, false, some (ascii "FROM alpine")⟩ = "📝" ∧
    exact_file_emoji "LICENSE" = none ∧
    get_emoji ⟨ascii "LICENSE", true, false, false, false, some (ascii "MIT License")⟩ = "📝" := by
  refine ⟨by decide, rfl, by decide, rfl⟩

/-- Claim C4 counterexample: the names "a" and "A" differ, yet both the
default-view and the detailed-view comparators return 0 on entries so
named (equal flags, equal sizes), because the final tiebreak is
case-insensitive. -/
theorem c4_counterexample :
    ascii "a" ≠ ascii "A" ∧
    compare_file_entries ⟨ascii "a", false, false⟩ ⟨ascii "A", false, false⟩ = 0 ∧
    compare_entries ⟨ascii "a", 5, false, 0⟩ ⟨ascii "A", 5, false, 0⟩ = 0 := by
  decide

/-- Claim C4 (amended): both comparators are total up to letter case —
whenever two entries' names differ case-insensitively (the case-folded
comparison is nonzero), each comparator returns a nonzero result. -/
theorem c4_amended_total_up_to_case :
    (∀ a b : FileCardInfo, strcasecmp_wrapper a.name b.name ≠ 0 →
      compare_file_entries a b ≠ 0) ∧
    (∀ fa fb : file_info, c_strcasecmp fa.name fb.name ≠ 0 →
      compare_entries fa fb ≠ 0) := by
  constructor
  · intro a b hne
    unfold compare_file_entries
    dsimp only
    split_ifs with h1 h2 h3 h4 h5
    · cases ha : a.is_directory <;> cases hb : b.is_directory <;>
        simp_all [bool_int]
    · cases hda : is_dot_name a.name <;> cases hdb : is_dot_name b.name <;>
        simp_all [bool_int]
    · exact hne
    · cases hda : is_dot_name a.name <;> cases hdb : is_dot_name b.name <;>
        simp_all [bool_int]
    · exact h5
    · exact hne
  · intro fa fb hne
    unfold compare_entries
    split_ifs with h1 h2 h3 h4 h5 h6 h7 h8 <;> first
      | exact hne
      | omega

/-- Witness for the amended C4 at concrete entry pairs. -/
theorem c4_witness :
    compare_file_entries ⟨ascii "b.txt", false, false⟩ ⟨ascii "a.txt", false, false⟩ ≠ 0 ∧
    compare_entries ⟨ascii "b", 5, false, 0⟩ ⟨ascii "a", 5, false, 0⟩ ≠ 0 :=
  ⟨c4_amended_total_up_to_case.1 ⟨ascii "b.txt", false, false⟩ ⟨ascii "a.txt", false, false⟩ (by decide),
   c4_amended_total_up_to_case.2 ⟨ascii "b", 5, false, 0⟩ ⟨ascii "a", 5, false, 0⟩ (by decide)⟩

/-- Claim C3 (amended): under the default-view comparator, for
non-directory entries agreeing on the hidden flag, an entry without an
extension compares LESS than one with an extension, i.e. it sorts
before it (the empty extension case-folds below any nonempty one). -/
theorem c3_amended_no_ext_first (a b : FileCardInfo)
    (ha : a.is_directory = false) (hb : b.is_directory = false)
    (hh : is_dot_name a.name = is_dot_name b.name)
    (hea : get_extension a.name = []) (heb : get_extension b.name ≠ [])
    (hpos : ∀ c ∈ b.name, 0 < c) :
    compare_file_entries a b < 0 := by
  obtain ⟨c, cs, hcons⟩ : ∃ c cs, get_extension b.name = c :: cs := by
    cases h : get_extension b.name with
    | nil => exact absurd h heb
    | cons c cs => exact ⟨c, cs, rfl⟩
  have hcpos : 0 < c :=
    hpos c (get_extension_mem b.name c (by rw [hcons]; exact List.mem_cons_self c cs))
  have hlow : 0 < c_tolower c := by
    unfold c_tolower
    split <;> omega
  have hec : strcasecmp_wrapper (get_extension a.name) (get_extension b.name)
      = 0 - (c_tolower c : Int) := by
    rw [hea, hcons]
    rfl
  unfold compare_file_entries
  dsimp only
  rw [if_neg (by rw [ha, hb]; exact fun h => h rfl)]
  rw [if_neg (by rw [ha]; simp)]
  rw [if_neg (by rw [hh]; exact fun h => h rfl)]
  rw [hec, if_pos (by omega)]
  omega

/-- Witness for the amended C3 at Makefile versus main.c. -/
theorem c3_witness :
    compare_file_entries ⟨ascii "Makefile", false, false⟩ ⟨ascii "main.c", false, false⟩ < 0 :=
  c3_amended_no_ext_first ⟨ascii "Makefile", false, false⟩ ⟨ascii "main.c", false, false⟩
    rfl rfl rfl (by decide) (by decide) (by decide)

/-- Claim C7: the display width of a pure-ASCII byte string is its byte
length (so 1 for "a" and 0 for the empty string); a single 4-byte-encoded
code point has display width 2; run lengths are classified from the
leading byte as under 0x80 giving 1, under 0xE0 giving 2, under 0xF0
giving 3, else 4; and every 1-, 2- or 3-byte run contributes exactly
width 1 while advancing by its run length. -/
theorem c7_width_calculator :
    (∀ bs : List Nat, (∀ b ∈ bs, 0 < b ∧ b < 0x80) → get_display_width bs = bs.length) ∧
    get_display_width (ascii "a") = 1 ∧
    get_display_width (ascii "") = 0 ∧
    (∀ b x y z : Nat, 0xF0 ≤ b → get_display_width [b, x, y, z] = 2) ∧
    (∀ c : Nat,
      (c < 0x80 → get_utf8_char_width c = 1) ∧
      (0x80 ≤ c → c < 0xE0 → get_utf8_char_width c = 2) ∧
      (0xE0 ≤ c → c < 0xF0 → get_utf8_char_width c = 3) ∧
      (0xF0 ≤ c → get_utf8_char_width c = 4)) ∧
    (∀ c rest, 0 < c → get_utf8_char_width c ≠ 4 →
      get_display_width (c :: rest)
        = 1 + get_display_width (rest.drop (get_utf8_char_width c - 1))) := by
  refine ⟨?_, by decide, by decide, ?_, ?_, ?_⟩
  · intro bs h
    induction bs with
    | nil => rfl
    | cons b rest ih =>
      have hb := h b (List.mem_cons_self b rest)
      rw [get_display_width_cons]
      rw [if_neg (by omega)]
      have hw : get_utf8_char_width b = 1 := by
        unfold get_utf8_char_width
        rw [if_pos hb.2]
      simp only [hw, Nat.sub_self, List.drop_zero, List.length_cons]
      rw [if_neg (by omega)]
      rw [ih (fun x hx => h x (List.mem_cons_of_mem b hx))]
      omega
  · intro b x y z hb
    have hw : get_utf8_char_width b = 4 := by
      unfold get_utf8_char_width
      rw [if_neg (by omega), if_neg (by omega), if_neg (by omega)]
    rw [get_display_width_cons]
    rw [if_neg (by omega)]
    simp only [hw]
    rfl
  · intro c
    refine ⟨fun h => ?_, fun h1 h2 => ?_, fun h1 h2 => ?_, fun h => ?_⟩ <;>
      · unfold get_utf8_char_width
        split_ifs <;> omega
  · intro c rest hc h4
    rw [get_display_width_cons]
    rw [if_neg (by omega)]
    simp only [if_neg h4]

/-- Witness for C7 at concrete byte strings. -/
theorem c7_witness :
    get_display_width (ascii "abc") = (ascii "abc").length ∧
    get_display_width [240, 159, 148, 151] = 2 ∧
    get_utf8_char_width 100 = 1 ∧
    get_display_width (206 :: [187]) = 1 + get_display_width ([187].drop 1) :=
  ⟨c7_width_calculator.1 (ascii "abc") (by decide),
   c7_width_calculator.2.2.2.1 240 159 148 151 (by decide),
   (c7_width_calculator.2.2.2.2.1 100).1 (by decide),
   c7_width_calculator.2.2.2.2.2 206 [187] (by decide) (by decide)⟩

/-- Claim C5: for a non-empty entry list the computed column count
equals floor((terminal_width + 2) / (max_entry_width + 2)) clamped into
the range from 1 to the directory's max_columns; in particular it never
exceeds max_columns and is always at least 1. -/
theorem c5_columns_clamped (cards : List CardView) (tw : Nat) (dir : String)
    (_hne : cards ≠ []) :
    num_columns cards tw dir
      = max 1 (min ((tw + 2) / (max_entry_width cards + 2)) (get_max_columns dir)) ∧
    1 ≤ num_columns cards tw dir ∧
    num_columns cards tw dir ≤ get_max_columns dir := by
  have hmc : (4 : Nat) ≤ get_max_columns dir := get_max_columns_ge_default dir
  unfold num_columns
  dsimp only
  split_ifs <;> refine ⟨by omega, by omega, by omega⟩

/-- Witness for C5: five cards of width 10 at terminal width 40. -/
theorem c5_witness :
    num_columns c5_cards 40 "."
      = max 1 (min ((40 + 2) / (max_entry_width c5_cards + 2)) (get_max_columns ".")) ∧
    1 ≤ num_columns c5_cards 40 "." ∧
    num_columns c5_cards 40 "." ≤ get_max_columns "." :=
  c5_columns_clamped c5_cards 40 "." (by decide)

/-- Claim C6: with rows = ceil(entry_count / columns), the grid is
column-major — the entry at flat index i occupies column i / rows and
row i mod rows, the cell at column c, row r holds entry c*rows + r
(`cell_index`), every such row index is below rows and every such column
index below the column count. -/
theorem c6_column_major (n cols : Nat) (hn : 0 < n) (hc : 0 < cols) :
    0 < grid_rows n cols ∧
    n ≤ cols * grid_rows n cols ∧
    ∀ i, i < n →
      cell_index (grid_rows n cols) (i / grid_rows n cols) (i % grid_rows n cols) = i ∧
      i % grid_rows n cols < grid_rows n cols ∧
      i / grid_rows n cols < cols := by
  have hr : 0 < grid_rows n cols := Nat.div_pos (by omega) hc
  have hge : n ≤ cols * grid_rows n cols := by
    have h := Nat.div_add_mod (n + cols - 1) cols
    have h2 : (n + cols - 1) % cols < cols := Nat.mod_lt _ hc
    unfold grid_rows
    set q := (n + cols - 1) / cols with hq
    set t := cols * q with ht
    omega
  refine ⟨hr, hge, fun i hi => ⟨?_, Nat.mod_lt i hr, ?_⟩⟩
  · unfold cell_index
    rw [Nat.mul_comm]
    exact Nat.div_add_mod i (grid_rows n cols)
  · exact (Nat.div_lt_iff_lt_mul hr).mpr (by omega)

/-- Witness for C6 at the spec scenario, 5 entries in 3 columns (where
flat index 3 lands in column 1, row 1). -/
theorem c6_witness :
    0 < grid_rows 5 3 ∧
    5 ≤ 3 * grid_rows 5 3 ∧
    ∀ i, i < 5 →
      cell_index (grid_rows 5 3) (i / grid_rows 5 3) (i % grid_rows 5 3) = i ∧
      i % grid_rows 5 3 < grid_rows 5 3 ∧
      i / grid_rows 5 3 < 3 :=
  c6_column_major 5 3 (by decide) (by decide)

/-- Claim C10: the text probe judges an empty read (zero bytes) as text
(`is_text_file` returns 1) and an unopenable file as non-text (returns
0); hence a regular, non-hidden, non-executable file with no recognized
extension gets the text glyph when its bounded read is empty and the
unknown glyph when it cannot be opened at all. -/
theorem c10_text_probe (m : EmojiMeta)
    (hstat : m.statOk = true) (hlnk : m.isLnk = false) (hdir : m.isDir = false)
    (hhid : m.path.headD 0 ≠ 46) (hexec : m.isExec = false)
    (hext : (afterLastDot m.path).bind extension_emoji = none) :
    is_text_file (some []) = 1 ∧
    is_text_file none = 0 ∧
    (m.content = some [] → get_emoji m = "📝") ∧
    (m.content = none → get_emoji m = "❓") := by
  have hfall : ∀ hcontent : Option (List Nat), m.content = hcontent →
      get_emoji m = emoji_fallback m := by
    intro _ _
    unfold get_emoji
    rw [hstat, hlnk, hdir]
    simp only [Bool.not_true]
    rw [if_neg Bool.false_ne_true, if_neg Bool.false_ne_true, if_neg Bool.false_ne_true]
    cases had : afterLastDot m.path with
    | none => rfl
    | some ext =>
      rw [had] at hext
      simp only [Option.some_bind] at hext
      dsimp only
      rw [hext]
  have hfb : emoji_fallback m = if is_text_file m.content ≠ 0 then "📝" else "❓" := by
    unfold emoji_fallback
    rw [if_neg (by simpa using hhid), if_neg (by rw [hexec]; exact Bool.false_ne_true)]
  refine ⟨rfl, rfl, ?_, ?_⟩
  · intro hc
    rw [hfall m.content rfl, hfb, hc]
    rfl
  · intro hc
    rw [hfall m.content rfl, hfb, hc]
    rfl

/-- Witness for C10 at a concrete extensionless file. -/
theorem c10_witness :
    get_emoji ⟨ascii "data", true, false, false, false, some []⟩ = "📝" ∧
    get_emoji ⟨ascii "data", true, false, false, false, none⟩ = "❓" :=
  ⟨(c10_text_probe ⟨ascii "data", true, false, false, false, some []⟩
      rfl rfl rfl (by decide) rfl (by decide)).2.2.1 rfl,
   (c10_text_probe ⟨ascii "data", true, false, false, false, none⟩
      rfl rfl rfl (by decide) rfl (by decide)).2.2.2 rfl⟩

/-- Claim C8 counterexample: a single narrow entry at terminal width 80
is rendered as one row that ends in two trailing padding spaces (the
computed column count exceeds 1, so the lone cell is padded to its
column width plus the fixed spacing), contradicting the no-trailing-
padding claim. -/
theorem c8_counterexample :
    display_grid [c8_card] 80 "." = [cell_bytes c8_card ++ [32, 32]] ∧
    1 < num_columns [c8_card] 80 "." := by
  decide

/-- A flattened range-map whose positive-index pieces are empty is its head piece. -/
theorem flatten_range_head (f : Nat → List Nat) :
    ∀ cols, 0 < cols → (∀ j, 0 < j → f j = []) →
      ((List.range cols).map f).flatten = f 0 := by
  intro cols
  induction cols with
  | zero => intro h _; omega
  | succ k ih =>
    intro _ hj
    rw [List.range_succ, List.map_append, List.flatten_append]
    rcases Nat.eq_zero_or_pos k with h0 | hk
    · subst h0
      simp
    · rw [ih hk hj]
      simp [hj k hk]

/-- Claim C8 (amended): for exactly one entry the renderer emits exactly
one row, consisting of the cell bytes followed by exactly SPACING (2)
trailing padding spaces when the computed column count exceeds one, and
by no padding when the column count is one. -/
theorem c8_amended_single_entry (e : CardView) (tw : Nat) (dir : String) :
    display_grid [e] tw dir =
      [cell_bytes e ++
        List.replicate (if 1 < num_columns [e] tw dir then 2 else 0) 32] := by
  have hc : 1 ≤ num_columns [e] tw dir := num_columns_pos [e] tw dir
  unfold display_grid
  dsimp only
  have hrows : grid_rows (List.length [e]) (num_columns [e] tw dir) = 1 := by
    unfold grid_rows
    simp only [List.length_singleton]
    rw [show 1 + num_columns [e] tw dir - 1 = num_columns [e] tw dir by omega]
    exact Nat.div_self (by omega)
  rw [hrows]
  rw [show List.range 1 = [0] from rfl]
  simp only [List.map_cons, List.map_nil]
  congr 1
  unfold render_row
  rw [flatten_range_head _ (num_columns [e] tw dir) (by omega)
    (fun j hj => by
      unfold cell_render cell_index
      have hnone : ([e] : List CardView).get? (j * 1 + 0) = none := by
        cases j with
        | zero => omega
        | succ k => rfl
      rw [hnone])]
  unfold cell_render cell_index
  rw [show ([e] : List CardView).get? (0 * 1 + 0) = some e from rfl]
  dsimp only
  have hcw : col_width [entry_width e] 1 0 = entry_width e := by
    unfold col_width
    show List.foldl (fun m p => if p.1 / 1 = 0 then max m p.2 else m) 0
      [(0, entry_width e)] = entry_width e
    rw [List.foldl_cons, List.foldl_nil, if_pos (by norm_num)]
    show max 0 (entry_width e) = entry_width e
    omega
  rw [hcw]
  rw [show ([entry_width e].getD (0 * 1 + 0) 0) = entry_width e from rfl]
  have hsub : entry_width e - entry_width e + 2 = 2 := by omega
  by_cases h1 : 1 < num_columns [e] tw dir
  · rw [if_pos (show (0:Nat) < num_columns [e] tw dir - 1 by omega), if_pos h1, hsub]
  · rw [if_neg (show ¬ (0:Nat) < num_columns [e] tw dir - 1 by omega), if_neg h1]

end Facad
